import Mathlib

/-!
Verification of the keeth/levity OCPP 1.6-J central system against its
natural-language specification.

The development shallowly embeds the Python sources:

* namespace `Levity` — the asyncio server under `src/levity/` (SQLite
  repositories, `LevityChargePoint` OCPP handlers, plugin dispatcher);
* namespace `Be` — the Django application under `be/` (models, OCPP
  middlewares, websocket event handlers);
* namespace `Ws` — the websocket gateway under `ws/src/levity_ws/`.

Machine integers are modelled as `Int`/`Nat`; wall-clock instants as `Nat`
ticks supplied explicitly where the Python code reads the clock; SQL `NULL`
as `Option.none`; Python exceptions as `Except` errors carrying the state
at the point the exception is raised.
-/

namespace Levity

/-- Row of the `tx` table, mirroring the `Transaction` dataclass
(`src/levity/models/domain.py:45-62`) and `_row_to_model`
(`src/levity/repositories/transaction.py:101-118`).  `id` is the SQLite
auto-increment primary key returned by `RETURNING id`; `tx_id` is the
separate OCPP transaction-id column, `NULL` unless a caller sets it
(the dataclass default is `None`). -/
structure Transaction where
  id : Nat
  tx_id : Option Nat
  cp_id : String
  cp_conn_id : Nat
  id_tag : String
  start_time : Nat
  stop_time : Option Nat
  meter_start : Int
  meter_stop : Option Int
  energy_delivered : Int
  stop_reason : String
  status : String
deriving Repr, DecidableEq, Inhabited

/-- Row of the `meter_val` table, mirroring the `MeterValue` dataclass
(`src/levity/models/domain.py:65-82`).  Values are sampled meter readings;
`value` is modelled as `Int` (the Python field is `float`; every claim
evaluates integral readings, and the orphan-closure code applies `int(...)`
to it before use). -/
structure MeterValue where
  id : Nat
  tx_id : Option Nat
  cp_id : String
  cp_conn_id : Nat
  timestamp : Nat
  measurand : String
  value : Int
  unit : String
  context : String
  location : String
  phase : String
  format : String
deriving Repr, DecidableEq, Inhabited

/-- Row of the `cp_conn` table, mirroring the `Connector` dataclass
(`src/levity/models/domain.py:31-42`).  `id` is the auto-increment key,
`none` until the row is inserted. -/
structure Connector where
  id : Option Nat
  cp_id : String
  conn_id : Nat
  status : String
  error_code : String
  vendor_error_code : String
deriving Repr, DecidableEq, Inhabited

/-- The `ChargePoint` dataclass (`src/levity/models/domain.py:8-28`) and the
`cp` table row.  Every Python attribute may hold `None` (SQL `NULL`), so each
field is an `Option`; the dataclass string defaults are `some ""` and the
status default is `some "Unknown"`.  `is_connected` is kept as the Python
value (`none` for `None`); the repository stores it through the expression
`1 if cp.is_connected else 0`, i.e. Python truthiness. -/
structure ChargePoint where
  id : String
  name : Option String
  vendor : Option String
  model : Option String
  serial_number : Option String
  firmware_version : Option String
  iccid : Option String
  imsi : Option String
  status : Option String
  is_connected : Option Bool
  last_heartbeat_at : Option Nat
  last_boot_at : Option Nat
  last_connect_at : Option Nat
  last_tx_start_at : Option Nat
  last_tx_stop_at : Option Nat
deriving Repr, DecidableEq, Inhabited

/-- Dataclass construction `ChargePoint(id=...)` with every other field left
at its default (`models/domain.py:8-28`): empty strings, status `"Unknown"`,
`is_connected=False`, timestamps `None`. -/
def ChargePoint.mkDefault (id : String) : ChargePoint :=
  { id := id
    name := some ""
    vendor := some ""
    model := some ""
    serial_number := some ""
    firmware_version := some ""
    iccid := some ""
    imsi := some ""
    status := some "Unknown"
    is_connected := some false
    last_heartbeat_at := none
    last_boot_at := none
    last_connect_at := none
    last_tx_start_at := none
    last_tx_stop_at := none }

/-- The SQLite database reachable from one `LevityChargePoint`: the four
tables plus the auto-increment counters. -/
structure Db where
  cps : List ChargePoint
  conns : List Connector
  txs : List Transaction
  mvs : List MeterValue
  next_conn_id : Nat
  next_tx_id : Nat
  next_mv_id : Nat
deriving Repr, DecidableEq, Inhabited

/-- SELECT * FROM cp WHERE id = ? (`repositories/charge_point.py:62-67`). -/
def ChargePointRepository.get_by_id (db : Db) (cp_id : String) : Option ChargePoint :=
  db.cps.find? (fun c => c.id == cp_id)

/-- The DO UPDATE SET clause of `ChargePointRepository.upsert`
(`repositories/charge_point.py:21-36`): every column is wrapped in
`COALESCE(excluded.col, col)` — a `NULL` in the new row keeps the stored
value — except `is_connected`, which is assigned unconditionally from
`1 if cp.is_connected else 0`. -/
def ChargePointRepository.updateRow (cp old : ChargePoint) : ChargePoint :=
  { id := old.id
    name := cp.name <|> old.name
    vendor := cp.vendor <|> old.vendor
    model := cp.model <|> old.model
    serial_number := cp.serial_number <|> old.serial_number
    firmware_version := cp.firmware_version <|> old.firmware_version
    iccid := cp.iccid <|> old.iccid
    imsi := cp.imsi <|> old.imsi
    status := cp.status <|> old.status
    is_connected := some (cp.is_connected == some true)
    last_heartbeat_at := cp.last_heartbeat_at <|> old.last_heartbeat_at
    last_boot_at := cp.last_boot_at <|> old.last_boot_at
    last_connect_at := cp.last_connect_at <|> old.last_connect_at
    last_tx_start_at := cp.last_tx_start_at <|> old.last_tx_start_at
    last_tx_stop_at := cp.last_tx_stop_at <|> old.last_tx_stop_at }

/-- INSERT INTO cp ... ON CONFLICT(id) DO UPDATE SET ...
(`repositories/charge_point.py:12-60`).  A fresh row stores the supplied
values (with `is_connected` coerced through Python truthiness); an existing
row is updated per `ChargePointRepository.updateRow`. -/
def ChargePointRepository.upsert (db : Db) (cp : ChargePoint) : Db :=
  match db.cps.find? (fun c => c.id == cp.id) with
  | none =>
      { db with cps := db.cps ++ [{ cp with is_connected := some (cp.is_connected == some true) }] }
  | some _ =>
      { db with cps := db.cps.map (fun old =>
          if old.id == cp.id then ChargePointRepository.updateRow cp old else old) }

/-- UPDATE cp SET status = ? WHERE id = ? (`repositories/charge_point.py:97-105`). -/
def ChargePointRepository.update_status (db : Db) (cp_id : String) (status : String) : Db :=
  { db with cps := db.cps.map (fun c =>
      if c.id == cp_id then { c with status := some status } else c) }

/-- SELECT * FROM cp_conn WHERE cp_id = ? AND conn_id = ?
(`repositories/connector.py:42-49`). -/
def ConnectorRepository.get_by_cp_and_connector (db : Db) (cp_id : String) (conn_id : Nat) :
    Option Connector :=
  db.conns.find? (fun c => c.cp_id == cp_id && c.conn_id == conn_id)

/-- INSERT INTO cp_conn ... ON CONFLICT(cp_id, conn_id) DO UPDATE SET
status/error_code/vendor_error_code unconditionally, RETURNING id
(`repositories/connector.py:10-40`). -/
def ConnectorRepository.upsert (db : Db) (c : Connector) : Connector × Db :=
  match db.conns.find? (fun x => x.cp_id == c.cp_id && x.conn_id == c.conn_id) with
  | some old =>
      let updated : Connector :=
        { old with status := c.status, error_code := c.error_code,
                   vendor_error_code := c.vendor_error_code }
      (updated,
       { db with conns := db.conns.map (fun x =>
           if x.cp_id == c.cp_id && x.conn_id == c.conn_id then updated else x) })
  | none =>
      let row : Connector := { c with id := some db.next_conn_id }
      (row, { db with conns := db.conns ++ [row], next_conn_id := db.next_conn_id + 1 })

/-- INSERT INTO tx (...) RETURNING id (`repositories/transaction.py:12-37`):
the row stores the caller-supplied columns — in particular `tx_id` exactly as
given (the handler never sets it, so it is `NULL`) — and the fresh
auto-increment `id` is written back onto the returned record. -/
def TransactionRepository.create (db : Db) (tx : Transaction) : Transaction × Db :=
  let row : Transaction := { tx with id := db.next_tx_id }
  (row, { db with txs := db.txs ++ [row], next_tx_id := db.next_tx_id + 1 })

/-- SELECT * FROM tx WHERE id = ? (`repositories/transaction.py:39-44`). -/
def TransactionRepository.get_by_id (db : Db) (tx_id : Nat) : Option Transaction :=
  db.txs.find? (fun t => t.id == tx_id)

/-- UPDATE tx SET stop_time/meter_stop/energy_delivered/stop_reason,
status = Completed WHERE tx_id = ? (`repositories/transaction.py:68-86`).
The WHERE clause filters on the `tx_id` column (the OCPP transaction id),
not the primary key `id`; `energy_delivered` becomes
`meter_stop - meter_start`. -/
def TransactionRepository.stop_transaction (db : Db) (ocpp_tx_id : Nat) (stop_time : Nat)
    (meter_stop : Int) (stop_reason : String) : Db :=
  { db with txs := db.txs.map (fun t =>
      if t.tx_id == some ocpp_tx_id then
        { t with stop_time := some stop_time
                 meter_stop := some meter_stop
                 energy_delivered := meter_stop - t.meter_start
                 stop_reason := stop_reason
                 status := "Completed" }
      else t) }

/-- SELECT * FROM meter_val WHERE tx_id = ? ORDER BY timestamp DESC LIMIT 1
(`repositories/meter_value.py:99-112`): the row with the greatest timestamp
among the rows of the transaction (no measurand filter; on equal timestamps
SQLite returns the earlier row of the scan, modelled by the strict
comparison). -/
def MeterValueRepository.get_last_for_transaction (db : Db) (tx_id : Nat) : Option MeterValue :=
  (db.mvs.filter (fun m => m.tx_id == some tx_id)).foldl
    (fun acc m =>
      match acc with
      | none => some m
      | some b => if m.timestamp > b.timestamp then some m else acc)
    none

/-- Field names of the `PluginContext` dataclass
(`src/levity/plugins/base.py:51-64`): `charge_point`, `message_data` and
`result` — there is no `raw_message` field. -/
def PluginContext.fieldNames : List String :=
  ["charge_point", "message_data", "result"]

/-- Keyword arguments with which `_execute_plugin_hooks` constructs the
`PluginContext` (`src/levity/handlers/charge_point.py:733-738`). -/
def executeHooksKwargs : List String :=
  ["charge_point", "message_data", "raw_message", "result"]

/-- The TypeError a Python dataclass raises when constructed with a keyword
that is not one of its fields. -/
def pluginContextTypeError : String :=
  "TypeError: PluginContext.__init__ got an unexpected keyword argument raw_message"

/-- A plugin hook method: it may mutate the database and may raise; a raised
exception carries the state at the point of the raise. -/
abbrev Hook := Db → Except (String × Db) Db

/-- The per-hook loop of `_execute_plugin_hooks`
(`src/levity/handlers/charge_point.py:740-754`): each hook runs inside
`try ... except Exception`, so a raising hook is logged and the loop
continues with the state the hook left behind. -/
def runHookLoop (hooks : List Hook) (db : Db) : Db :=
  hooks.foldl
    (fun s h =>
      match h s with
      | .ok s2 => s2
      | .error (_, s2) => s2)
    db

/-- `_execute_plugin_hooks` (`src/levity/handlers/charge_point.py:716-754`).
If no hook is registered for the phase it returns at once.  Otherwise it
first constructs `PluginContext(charge_point=..., message_data=...,
raw_message=..., result=...)` outside any `try` block; dataclass
construction raises `TypeError` when a keyword is not a field, and that
exception propagates to the caller.  Only after a successful construction
does the guarded per-hook loop run. -/
def executePluginHooks (hooks : List Hook) (db : Db) : Except (String × Db) Db :=
  if hooks.isEmpty then .ok db
  else if executeHooksKwargs.all (fun k => PluginContext.fieldNames.contains k) then
    .ok (runHookLoop hooks db)
  else .error (pluginContextTypeError, db)

/-- Member names of the `PluginHook` enum
(`src/levity/plugins/base.py:15-48`): only BEFORE and AFTER members exist —
the enum defines no ON member for any action, although every handler
dispatches an ON phase. -/
def PluginHook.memberNames : List String :=
  ["BEFORE_BOOT_NOTIFICATION", "AFTER_BOOT_NOTIFICATION",
   "BEFORE_STATUS_NOTIFICATION", "AFTER_STATUS_NOTIFICATION",
   "BEFORE_START_TRANSACTION", "AFTER_START_TRANSACTION",
   "BEFORE_STOP_TRANSACTION", "AFTER_STOP_TRANSACTION",
   "BEFORE_HEARTBEAT", "AFTER_HEARTBEAT",
   "BEFORE_METER_VALUES", "AFTER_METER_VALUES",
   "BEFORE_AUTHORIZE", "AFTER_AUTHORIZE"]

/-- The AttributeError Python raises when an enum member is missing. -/
def pluginHookAttributeError (name : String) : String :=
  "AttributeError: " ++ name

/-- A hook-dispatch call site `await self._execute_plugin_hooks(
PluginHook.<NAME>, ...)` in the handlers
(`src/levity/handlers/charge_point.py`, e.g. lines 362 and 406).  Python
evaluates the argument `PluginHook.<NAME>` before the call: when the enum
does not define the member — every ON name — an AttributeError is raised at
the call site, carrying the database state reached so far, and the
dispatcher is never entered.  When the member exists the dispatcher
`executePluginHooks` runs on the hooks registered for that phase. -/
def dispatchPhase (name : String) (hooks : List Hook) (db : Db) : Except (String × Db) Db :=
  if PluginHook.memberNames.contains name then executePluginHooks hooks db
  else .error (pluginHookAttributeError name, db)

/-- Modelled from the spec: the Store operation `active_for_cp(cp_id)`
"returning all rows with stop_time IS NULL" (spec section 4.2).  The plugin
calls `tx_repo.get_all_active_for_cp(cp_id)`
(`src/levity/plugins/orphaned_transaction.py:46`), but
`TransactionRepository` (`src/levity/repositories/transaction.py`) defines
no such method — only `create`, `get_by_id`, `get_by_ocpp_tx_id`,
`get_active_for_connector`, `stop_transaction` and `get_all_for_cp` — so in
the source the attribute lookup raises `AttributeError`. -/
def get_all_active_for_cp (db : Db) (cp_id : String) : List Transaction :=
  db.txs.filter (fun t => t.cp_id == cp_id && t.stop_time == none)

/-- `OrphanedTransactionPlugin._close_orphaned_transactions`
(`src/levity/plugins/orphaned_transaction.py:33-85`) under the most
favourable reading: `get_all_active_for_cp` is taken to be the spec Store
operation `active_for_cp` (the method is absent from the repository, see
`get_all_active_for_cp`), and the keyword slip in the call
`stop_transaction(tx_db_id=tx.id, ...)` — the parameter is named
`ocpp_tx_id` (`repositories/transaction.py:68-74`), so the call as written
raises `TypeError` — is read as passing `tx.id` positionally.  For each
active transaction the last recorded meter value, of any measurand, gives
`meter_stop`; with no meter values `meter_start` is used; the transaction is
then stopped through `TransactionRepository.stop_transaction` with the given
reason. -/
def closeOrphanedTransactions (db : Db) (cp_id : String) (reason : String) (now : Nat) : Db :=
  (get_all_active_for_cp db cp_id).foldl
    (fun s tx =>
      let meter_stop : Int :=
        match MeterValueRepository.get_last_for_transaction s tx.id with
        | some m => m.value
        | none => tx.meter_start
      TransactionRepository.stop_transaction s tx.id now meter_stop reason)
    db

/-- `_ensure_charge_point_exists` (`src/levity/handlers/charge_point.py:204-220`):
upsert `ChargePoint(id=self.id, is_connected=True, status="Unknown")` when no
row exists. -/
def ensureChargePointExists (db : Db) (cp_id : String) : Db :=
  match ChargePointRepository.get_by_id db cp_id with
  | some _ => db
  | none =>
      ChargePointRepository.upsert db
        { ChargePoint.mkDefault cp_id with is_connected := some true, status := some "Unknown" }

/-- Reply payload of `call_result.StartTransaction`
(`src/levity/handlers/charge_point.py:401-403`). -/
structure StartTransactionResult where
  transaction_id : Nat
  id_tag_status : String
deriving Repr, DecidableEq, Inhabited

/-- `on_start_transaction` (`src/levity/handlers/charge_point.py:342-408`):
ensure the charge point row, dispatch the BEFORE_START_TRANSACTION phase,
look up or create the connector (status Charging), insert the transaction
row (status Active, `tx_id` left at its `None` default), upsert the charge
point with `last_tx_start_at`, build the reply carrying the database id of
the new row as the OCPP `transactionId`, and then dispatch the ON phase
at `PluginHook.ON_START_TRANSACTION` (line 406) — a member the enum does
not define, so the handler raises AttributeError there on every invocation
and the reply is never returned; the database mutations made before that
line stand. -/
def onStartTransaction (beforeHooks onHooks : List Hook) (db : Db) (cp_id : String)
    (connector_id : Nat) (id_tag : String) (meter_start : Int) (start_time : Nat) :
    Except (String × Db) (StartTransactionResult × Db) := do
  let db := ensureChargePointExists db cp_id
  let db ← dispatchPhase "BEFORE_START_TRANSACTION" beforeHooks db
  let (connector, db) :=
    match ConnectorRepository.get_by_cp_and_connector db cp_id connector_id with
    | some c => (c, db)
    | none =>
        ConnectorRepository.upsert db
          { id := none, cp_id := cp_id, conn_id := connector_id,
            status := "Charging", error_code := "", vendor_error_code := "" }
  let (tx, db) :=
    TransactionRepository.create db
      { id := 0, tx_id := none, cp_id := cp_id, cp_conn_id := connector.id.getD 0,
        id_tag := id_tag, start_time := start_time, stop_time := none,
        meter_start := meter_start, meter_stop := none, energy_delivered := 0,
        stop_reason := "", status := "Active" }
  let db :=
    ChargePointRepository.upsert db
      { ChargePoint.mkDefault cp_id with
          is_connected := some true, last_tx_start_at := some start_time }
  let db ← dispatchPhase "ON_START_TRANSACTION" onHooks db
  .ok ({ transaction_id := tx.id, id_tag_status := "Accepted" }, db)

/-- `on_stop_transaction` (`src/levity/handlers/charge_point.py:410-460`) for
a call without a `transactionData` block: ensure the charge point row,
dispatch the BEFORE_STOP_TRANSACTION phase, stop the transaction through
`TransactionRepository.stop_transaction` with the OCPP `transactionId` from
the payload, upsert the charge point with `last_tx_stop_at`, and then
dispatch the ON phase at `PluginHook.ON_STOP_TRANSACTION` (line 458) — a
member the enum does not define, so the handler raises AttributeError there
on every invocation and the idTagInfo Accepted reply is never returned; the
UPDATE and the upsert before that line stand. -/
def onStopTransaction (beforeHooks onHooks : List Hook) (db : Db) (cp_id : String)
    (meter_stop : Int) (stop_time : Nat) (transaction_id : Nat) (reason : String) :
    Except (String × Db) (String × Db) := do
  let db := ensureChargePointExists db cp_id
  let db ← dispatchPhase "BEFORE_STOP_TRANSACTION" beforeHooks db
  let db := TransactionRepository.stop_transaction db transaction_id stop_time meter_stop reason
  let db :=
    ChargePointRepository.upsert db
      { ChargePoint.mkDefault cp_id with
          is_connected := some true, last_tx_stop_at := some stop_time }
  let db ← dispatchPhase "ON_STOP_TRANSACTION" onHooks db
  .ok ("Accepted", db)

/-- Reply payload of `call_result.BootNotification`
(`src/levity/handlers/charge_point.py:260-264`). -/
structure BootNotificationResult where
  current_time : Nat
  interval : Nat
  status : String
deriving Repr, DecidableEq, Inhabited

/-- `on_boot_notification` (`src/levity/handlers/charge_point.py:222-269`):
dispatch the BEFORE_BOOT_NOTIFICATION phase, upsert the charge point with
the hardware fields, `is_connected=True` and `last_boot_at=now`, build the
Accepted reply, and then dispatch the ON phase at
`PluginHook.ON_BOOT_NOTIFICATION` (line 267) — a member the enum does not
define, so the handler raises AttributeError there on every invocation and
the reply is never returned; the upsert before that line stands. -/
def onBootNotification (beforeHooks onHooks : List Hook) (db : Db) (cp_id : String)
    (vendor model : String) (heartbeat_interval : Nat) (now : Nat) :
    Except (String × Db) (BootNotificationResult × Db) := do
  let db ← dispatchPhase "BEFORE_BOOT_NOTIFICATION" beforeHooks db
  let db :=
    ChargePointRepository.upsert db
      { ChargePoint.mkDefault cp_id with
          vendor := some vendor, model := some model,
          is_connected := some true, last_boot_at := some now }
  let result : BootNotificationResult :=
    { current_time := now, interval := heartbeat_interval, status := "Accepted" }
  let db ← dispatchPhase "ON_BOOT_NOTIFICATION" onHooks db
  .ok (result, db)

/-- `on_status_notification` (`src/levity/handlers/charge_point.py:297-340`):
ensure the charge point row, dispatch the BEFORE_STATUS_NOTIFICATION phase,
then either update the charge point status (connector_id 0) or upsert the
connector row (connector_id positive), and then dispatch the ON phase at
`PluginHook.ON_STATUS_NOTIFICATION` (line 338) — a member the enum does not
define, so the handler raises AttributeError there on every invocation and
the empty reply is never returned; the database write before that line
stands. -/
def onStatusNotification (beforeHooks onHooks : List Hook) (db : Db) (cp_id : String)
    (connector_id : Nat) (error_code status vendor_error_code : String) :
    Except (String × Db) Db := do
  let db := ensureChargePointExists db cp_id
  let db ← dispatchPhase "BEFORE_STATUS_NOTIFICATION" beforeHooks db
  let db :=
    if connector_id == 0 then
      ChargePointRepository.update_status db cp_id status
    else
      (ConnectorRepository.upsert db
        { id := none, cp_id := cp_id, conn_id := connector_id,
          status := status, error_code := error_code,
          vendor_error_code := vendor_error_code }).2
  let db ← dispatchPhase "ON_STATUS_NOTIFICATION" onHooks db
  .ok db

/-- `on_authorize` (`src/levity/handlers/charge_point.py:531-552`): ensure
the charge point row, dispatch the BEFORE_AUTHORIZE phase, accept the tag,
and then dispatch the ON phase at `PluginHook.ON_AUTHORIZE` (line 550) — a
member the enum does not define, so the handler raises AttributeError there
on every invocation, even with no plugins registered, and the idTagInfo
Accepted reply is never returned. -/
def onAuthorize (beforeHooks onHooks : List Hook) (db : Db) (cp_id : String)
    (id_tag : String) : Except (String × Db) (String × Db) := do
  let db := ensureChargePointExists db cp_id
  let db ← dispatchPhase "BEFORE_AUTHORIZE" beforeHooks db
  let result := "Accepted"
  let db ← dispatchPhase "ON_AUTHORIZE" onHooks db
  .ok (result, db)

/-- State carried by an exception that escaped a handler (the Python
exception propagates out of the `@on` coroutine with whatever database
mutations had already been committed). -/
def errorState {α : Type} : Except (String × Db) α → Option Db
  | .error (_, s) => some s
  | .ok _ => none

end Levity

namespace Be

/-- A row of the Django `Transaction` model
(`be/ocpp/models/transaction.py:7-18`): no status column — a transaction is
active precisely when `stopped_at` is `NULL`; `meter_stop` defaults to 0. -/
structure Transaction where
  id : Nat
  charge_point : String
  started_at : Option Nat
  stopped_at : Option Nat
  connector_id : String
  id_tag : String
  meter_start : Int
  meter_stop : Int
  meter_correction : Int
  stop_reason : Option String
deriving Repr, DecidableEq, Inhabited

/-- A row of the Django `MeterValue` model (`be/ocpp/models/meter_value.py`),
restricted to the columns the orphan-closure middleware reads. -/
structure MeterValue where
  id : Nat
  transaction_id : Nat
  timestamp : Nat
  measurand : String
  value : Int
deriving Repr, DecidableEq, Inhabited

/-- `Transaction.stop` (`be/ocpp/models/transaction.py:20-27`): set
`meter_stop`, `stop_reason` and `stopped_at = now` on the row (the
`last_tx_stop_at` touch on the charge point is outside this model). -/
def Transaction.stop (t : Transaction) (reason : String) (meter_stop : Int) (now : Nat) :
    Transaction :=
  { t with meter_stop := meter_stop, stop_reason := some reason, stopped_at := some now }

/-- The queryset `orphaned_tx.metervalue_set.filter(measurand=
"Energy.Active.Import.Register").order_by("timestamp").last()`
(`be/ocpp/services/ocpp/automation/orphaned_transaction.py:22-28`): the
matching row with the greatest timestamp. -/
def lastEnergyMeterValue (mvs : List MeterValue) (tx_id : Nat) : Option MeterValue :=
  (mvs.filter (fun m =>
      m.transaction_id == tx_id && m.measurand == "Energy.Active.Import.Register")).foldl
    (fun acc m =>
      match acc with
      | none => some m
      | some b => if m.timestamp ≥ b.timestamp then some m else acc)
    none

/-- The orphan-closure loop of `OrphanedTransactionMiddleware.handle`
(`be/ocpp/services/ocpp/automation/orphaned_transaction.py:16-37`): for every
transaction of the station with `stopped_at IS NULL`, take the last
`Energy.Active.Import.Register` meter value as `meter_stop` — or 0 when
there is none (`meter_stop = last_meter_value.value if last_meter_value
else 0`) — and stop the transaction with reason Other.  The middleware then
delegates to the rest of the chain, which is outside this definition. -/
def orphanedTransactionHandle (txs : List Transaction) (mvs : List MeterValue)
    (charge_point : String) (now : Nat) : List Transaction :=
  txs.map (fun t =>
    if t.charge_point == charge_point && t.stopped_at == none then
      let meter_stop : Int :=
        match lastEnergyMeterValue mvs t.id with
        | some m => m.value
        | none => 0
      t.stop "Other" meter_stop now
    else t)

/-- A row of the Django `ChargePoint` model
(`be/ocpp/models/charge_point.py:7-29`), restricted to the columns touched
by the status-notification handler. -/
structure ChargePoint where
  id : String
  status : Option String
  vendor_error_code : String
  vendor_status_info : String
  vendor_status_id : String
deriving Repr, DecidableEq, Inhabited

/-- The StatusNotification payload fields the handler reads; `none` models
an absent key. -/
structure StatusPayload where
  connectorId : Nat
  status : String
  vendorErrorCode : Option String
  info : Option String
  vendorId : Option String
deriving Repr, DecidableEq, Inhabited

/-- `StatusNotificationHandler.handle`
(`be/ocpp/services/ocpp/status_notification.py:6-22`): unconditionally set
the charge point status and the three vendor fields from the payload —
the handler never reads `connectorId`, and the `be` application has no
Connector model at all.  The `or ""` idiom maps an absent key to the empty
string. -/
def statusNotificationHandle (cp : ChargePoint) (data : StatusPayload) : ChargePoint :=
  { cp with
      status := some data.status
      vendor_error_code := data.vendorErrorCode.getD ""
      vendor_status_info := data.info.getD ""
      vendor_status_id := data.vendorId.getD "" }

/-- A row of the Django `Message` model (`be/ocpp/models/message.py:12-29`),
restricted to the columns the receive path writes; `Meta.unique_together =
("actor", "unique_id")`. -/
structure Message where
  id : Nat
  charge_point : String
  message_type : Nat
  unique_id : String
  actor : String
  action : Option String
deriving Repr, DecidableEq, Inhabited

/-- The `ocpp_message` table with its auto-increment counter. -/
structure MessageStore where
  rows : List Message
  next_id : Nat
deriving Repr, DecidableEq, Inhabited

/-- The error SQLite raises for a violated unique constraint, surfaced by
Django as `IntegrityError`. -/
def integrityError : String :=
  "IntegrityError: UNIQUE constraint failed: ocpp_message.actor, ocpp_message.unique_id"

/-- `Message.objects.create(...)` under the `("actor", "unique_id")` unique
constraint (`be/ocpp/models/message.py:28-29`): inserting a second row with
the same actor and unique_id raises `IntegrityError` and stores nothing. -/
def Message.create (st : MessageStore) (m : Message) :
    Except String (Message × MessageStore) :=
  if st.rows.any (fun r => r.actor == m.actor && r.unique_id == m.unique_id) then
    .error integrityError
  else
    let row : Message := { m with id := st.next_id }
    .ok (row, { rows := st.rows ++ [row], next_id := st.next_id + 1 })

/-- `ReceiveHandler.handle` (`be/ocpp/services/websocket_event_handler.py:46-58`)
for an inbound Call frame `[2, unique_id, action, payload]`: store the
Message row with `actor=charge_point` — without any try/except, so a
duplicate `(actor, unique_id)` propagates the `IntegrityError` — and only on
success hand the stored row to `OCPPMessageHandler.handle_ocpp_message`,
which produces and sends exactly one reply for the call (abstracted here as
appending the call unique_id to the list of answered calls). -/
def receiveHandler (st : MessageStore) (replies : List String) (charge_point : String)
    (unique_id action : String) : Except String (MessageStore × List String) := do
  let (_, st2) ← Message.create st
      { id := 0, charge_point := charge_point, message_type := 2,
        unique_id := unique_id, actor := "charge_point", action := some action }
  .ok (st2, replies ++ [unique_id])

end Be

namespace Ws

/-- `CHARGER_REPLY_TIMEOUT_SECONDS` (`ws/src/levity_ws/cp.py:18`). -/
def CHARGER_REPLY_TIMEOUT_SECONDS : Nat := 30

/-- `CHARGER_COMMAND_DELAY_MS` (`ws/src/levity_ws/cp.py:20`), the `x-delay`
header with which every outbound command is published to the per-station
delayed exchange. -/
def CHARGER_COMMAND_DELAY_MS : Nat := 1000

/-- An outbound Call published to the per-station command queue by
`send_message_to_charge_point` (`ws/src/levity_ws/cp.py:74-88`), tagged with
the publish instant (milliseconds). -/
structure OutboundCommand where
  uid : String
  enqueued_at : Nat
deriving Repr, DecidableEq, Inhabited

/-- Observable events on the station link produced by the consumer loop. -/
inductive WireEvent
  | transmit (uid : String) (at_ms : Nat)
  | replyReceived (uid : String) (at_ms : Nat)
  | replyTimeout (uid : String) (at_ms : Nat)
deriving Repr, DecidableEq

/-- `consume_command_queue` (`ws/src/levity_ws/cp.py:90-177`) as a trace
semantics.  The single consumer task takes commands from the per-station
AMQP queue one at a time (FIFO delivery assumed of the broker; the
`x-delayed-message` exchange holds each message for its `x-delay` of
`CHARGER_COMMAND_DELAY_MS` before routing it, so a command published at
`e` is available no earlier than `e + CHARGER_COMMAND_DELAY_MS`).  For each
command the loop registers a waiter, writes the frame to the websocket
(`transmit`), then blocks in `asyncio.wait` until the correlated
CallResult/CallError sets the waiter or `CHARGER_REPLY_TIMEOUT_SECONDS`
elapse; only then does the iteration advance to the next command.
`replyAfter uid` is the time from transmission to the station reply for that
command, `none` if the station never replies. -/
def consumeCommandQueue (queue : List OutboundCommand) (freeAt : Nat)
    (replyAfter : String → Option Nat) : List WireEvent :=
  match queue with
  | [] => []
  | c :: rest =>
      let sendAt := max freeAt (c.enqueued_at + CHARGER_COMMAND_DELAY_MS)
      let timeoutAt := sendAt + CHARGER_REPLY_TIMEOUT_SECONDS * 1000
      match replyAfter c.uid with
      | some d =>
          if d ≤ CHARGER_REPLY_TIMEOUT_SECONDS * 1000 then
            WireEvent.transmit c.uid sendAt ::
              WireEvent.replyReceived c.uid (sendAt + d) ::
                consumeCommandQueue rest (sendAt + d) replyAfter
          else
            WireEvent.transmit c.uid sendAt ::
              WireEvent.replyTimeout c.uid timeoutAt ::
                consumeCommandQueue rest timeoutAt replyAfter
      | none =>
          WireEvent.transmit c.uid sendAt ::
            WireEvent.replyTimeout c.uid timeoutAt ::
              consumeCommandQueue rest timeoutAt replyAfter

/-- The `transmit` events of a trace, as (uid, instant) pairs. -/
def transmitLog : List WireEvent → List (String × Nat)
  | [] => []
  | .transmit u t :: rest => (u, t) :: transmitLog rest
  | _ :: rest => transmitLog rest

/-- Holds when the first transmission of the trace, if any, is at `t` or
later. -/
def nextTransmitNotBefore : List WireEvent → Nat → Bool
  | .transmit _ t2 :: _, t => t ≤ t2
  | _, _ => true

/-- Checks that a trace is serialized: every transmission is immediately
followed by the completion (reply or timeout) of the same command, at an
instant no later than the next transmission. -/
def serializedCheck : List WireEvent → Bool
  | [] => true
  | .transmit u _ :: e :: rest =>
      (match e with
       | .replyReceived v t => u == v && nextTransmitNotBefore rest t
       | .replyTimeout v t => u == v && nextTransmitNotBefore rest t
       | _ => false)
      && serializedCheck rest
  | _ => false

/-- `ctx.clients.pop(charge_point_id, None)` in `MainWebsocket.on_disconnect`
(`ws/src/levity_ws/server.py:86-96`): the registry entry of the station is
removed unconditionally — the handler never compares the registered client
with the session being torn down.  Clients are identified by tokens standing
for Python object identity. -/
def onDisconnectPop (clients : List (String × Nat)) (charge_point_id : String) :
    List (String × Nat) :=
  clients.filter (fun p => p.1 != charge_point_id)

/-- `websocket.accept(subprotocol=websocket.headers.get("sec-websocket-protocol"))`
in `MainWebsocket.on_connect` (`ws/src/levity_ws/server.py:70-72`): the
accepted subprotocol is the raw client header, `none` when the client sent
none. -/
def onConnectSubprotocol (header : Option String) : Option String :=
  header

end Ws

namespace Levity

/-- The levity session registry `self.charge_points : dict[str,
LevityChargePoint]` (`src/levity/server.py:46`), with sessions identified by
tokens standing for Python object identity. -/
def registryLookup (r : List (String × Nat)) (id : String) : Option Nat :=
  (r.find? (fun p => p.1 == id)).map Prod.snd

/-- The cleanup in `OCPPServer.on_connect`
(`src/levity/server.py:201-204`): `del self.charge_points[charge_point_id]`
runs only when `self.charge_points.get(charge_point_id) is charge_point`,
i.e. when the registered session is identity-equal to the one being torn
down. -/
def cleanupUnregister (r : List (String × Nat)) (id : String) (session : Nat) :
    List (String × Nat) :=
  if registryLookup r id == some session then r.filter (fun p => p.1 != id) else r

/-- `OCPPServer.select_subprotocol` (`src/levity/server.py:238-269`).
Returns the selected subprotocol together with whether the
unsupported-subprotocol warning was logged: an empty offer list selects
ocpp1.6; an offer list containing ocpp1.6 selects it; any other offer list
logs the warning and still selects ocpp1.6. -/
def select_subprotocol (subprotocols : List String) : String × Bool :=
  if subprotocols.isEmpty then ("ocpp1.6", false)
  else if "ocpp1.6" ∈ subprotocols then ("ocpp1.6", false)
  else ("ocpp1.6", true)

/-- The method body `OrphanedTransactionPlugin.on_before_start_transaction`
(`src/levity/plugins/orphaned_transaction.py:87-94`) as a hook value, under
the favourable reading embodied in `closeOrphanedTransactions`.  The plugin
intends to register it for BEFORE_START_TRANSACTION, but its `hooks()`
method also names `PluginHook.ON_BOOT_NOTIFICATION`, a member the enum does
not define, so evaluating the hook dictionary raises AttributeError inside
`_register_plugins` — which swallows it — and this method is never actually
registered (see `registerPluginHooks`). -/
def orphanBeforeStartHook (cp_id : String) (now : Nat) : Hook :=
  fun db => .ok (closeOrphanedTransactions db cp_id "Other" now)

/-- The method body `OrphanedTransactionPlugin.on_boot_notification`
(`src/levity/plugins/orphaned_transaction.py:96-104`), closing orphans with
reason Reboot, under the favourable reading embodied in
`closeOrphanedTransactions`.  `ON_BOOT_NOTIFICATION` is not a `PluginHook`
member, so this method can never be registered or dispatched in the
source. -/
def orphanBootHook (cp_id : String) (now : Nat) : Hook :=
  fun db => .ok (closeOrphanedTransactions db cp_id "Reboot" now)

/-- The `PluginHook` member names `OrphanedTransactionPlugin.hooks()` uses
as keys (`src/levity/plugins/orphaned_transaction.py:26-31`): the second is
not a member of the enum. -/
def orphanedTransactionPluginHookNames : List String :=
  ["BEFORE_START_TRANSACTION", "ON_BOOT_NOTIFICATION"]

/-- `_register_plugins` (`src/levity/handlers/charge_point.py:697-714`):
`plugin.hooks()` is called inside `try ... except Exception`; evaluating a
hook dictionary that names a missing `PluginHook` member raises
AttributeError, which is logged and swallowed, leaving NONE of the plugin
hooks registered.  Only when every name is a member is the association list
of (phase name, hook) registered. -/
def registerPluginHooks (hookNames : List String) (hooks : List (String × Hook)) :
    List (String × Hook) :=
  if hookNames.all (fun n => PluginHook.memberNames.contains n) then hooks else []

/-- The hooks `_register_plugins` ends up registering for
`OrphanedTransactionPlugin`: the empty association list, because `hooks()`
raises on the missing `ON_BOOT_NOTIFICATION` member. -/
def orphanPluginRegisteredHooks (cp_id : String) (now : Nat) : List (String × Hook) :=
  registerPluginHooks orphanedTransactionPluginHookNames
    [("BEFORE_START_TRANSACTION", orphanBeforeStartHook cp_id now),
     ("ON_BOOT_NOTIFICATION", orphanBootHook cp_id now)]

/-- The hooks registered for one phase (`self._plugin_hooks[hook]`). -/
def hooksFor (registered : List (String × Hook)) (phase : String) : List Hook :=
  (registered.filter (fun p => p.1 == phase)).map Prod.snd

/-- A hook that succeeds without touching the database. -/
def benignHook : Hook := fun db => .ok db

/-- A hook that raises, as in the `BrokenPlugin` of
`tests/test_plugins.py::test_plugin_error_handling`. -/
def failingHook : Hook := fun db => .error ("RuntimeError: Intentional error", db)

/-- The stored charge point row of station CP1 after a connect. -/
def cp1Row : ChargePoint :=
  { ChargePoint.mkDefault "CP1" with is_connected := some true }

/-- A database holding only the CP1 charge point row. -/
def cleanDb : Db :=
  { cps := [cp1Row], conns := [], txs := [], mvs := [],
    next_conn_id := 1, next_tx_id := 1, next_mv_id := 1 }

/-- Preloaded active transaction of spec scenario S2: meter_start 100,
created by the system (so `tx_id` is the dataclass default `None`), never
stopped. -/
def c1OrphanTx : Transaction :=
  { id := 1, tx_id := none, cp_id := "CP1", cp_conn_id := 1, id_tag := "old-tag",
    start_time := 0, stop_time := none, meter_start := 100, meter_stop := none,
    energy_delivered := 0, stop_reason := "", status := "Active" }

/-- One Energy.Active.Import.Register reading of 1800 Wh for the preloaded
transaction, as in spec scenario S2. -/
def c1MeterValue : MeterValue :=
  { id := 1, tx_id := some 1, cp_id := "CP1", cp_conn_id := 1, timestamp := 50,
    measurand := "Energy.Active.Import.Register", value := 1800, unit := "Wh",
    context := "Sample.Periodic", location := "Outlet", phase := "", format := "Raw" }

/-- Database of spec scenario S2: station CP1 with one connector, the
preloaded active transaction and its meter value. -/
def c1Db : Db :=
  { cps := [cp1Row],
    conns := [{ id := some 1, cp_id := "CP1", conn_id := 1, status := "Charging",
                error_code := "", vendor_error_code := "" }],
    txs := [c1OrphanTx], mvs := [c1MeterValue],
    next_conn_id := 2, next_tx_id := 2, next_mv_id := 2 }

/-- Preloaded active transaction of spec scenario S3: meter_start 200 and no
meter values. -/
def c3OrphanTx : Transaction :=
  { id := 1, tx_id := none, cp_id := "CP1", cp_conn_id := 1, id_tag := "old-tag",
    start_time := 0, stop_time := none, meter_start := 200, meter_stop := none,
    energy_delivered := 0, stop_reason := "", status := "Active" }

/-- Database of spec scenario S3. -/
def c3Db : Db :=
  { cps := [cp1Row],
    conns := [{ id := some 1, cp_id := "CP1", conn_id := 1, status := "Charging",
                error_code := "", vendor_error_code := "" }],
    txs := [c3OrphanTx], mvs := [],
    next_conn_id := 2, next_tx_id := 2, next_mv_id := 1 }

/-- Scenario S1 steps StartTransaction then StopTransaction against the
handlers with no plugins registered.  Both handlers raise AttributeError at
their nonexistent ON phase after persisting, so the run threads the
database state carried by each exception: StartTransaction at meterStart 0
and instant 100 creates row 1 — the id its reply would have carried, and
the id the repository integration test reads back — then StopTransaction
stops id 1 with meterStop 5000, reason Local, at instant 200. -/
def c2Run : Option Db :=
  match errorState (onStartTransaction [] [] cleanDb "CP1" 1 "tag" 0 100) with
  | some s1 => errorState (onStopTransaction [] [] s1 "CP1" 5000 200 1 "Local")
  | none => none

end Levity

namespace Levity

/-- Status column of the stored charge point row, through the repository
read path. -/
def cpStatusOf (db : Db) (cp_id : String) : Option (Option String) :=
  (ChargePointRepository.get_by_id db cp_id).map ChargePoint.status

/-- Status column of the stored connector row. -/
def connStatusOf (db : Db) (cp_id : String) (conn_id : Nat) : Option String :=
  (ConnectorRepository.get_by_cp_and_connector db cp_id conn_id).map Connector.status

/-- Stored charge point row used by the upsert claims: vendor V1, model M1,
status Available, connected, last boot at instant 10. -/
def c9StoredRow : ChargePoint :=
  { ChargePoint.mkDefault "CP1" with
      vendor := some "V1", model := some "M1", status := some "Available",
      is_connected := some true, last_boot_at := some 10 }

/-- Database holding only `c9StoredRow`. -/
def c9Db : Db :=
  { cps := [c9StoredRow], conns := [], txs := [], mvs := [],
    next_conn_id := 1, next_tx_id := 1, next_mv_id := 1 }

/-- An upsert argument with every nullable field explicitly `None`
(`ChargePoint(id="CP1", name=None, vendor=None, ...)`). -/
def c9NullInput : ChargePoint :=
  { id := "CP1", name := none, vendor := none, model := none,
    serial_number := none, firmware_version := none, iccid := none, imsi := none,
    status := none, is_connected := none, last_heartbeat_at := none,
    last_boot_at := none, last_connect_at := none, last_tx_start_at := none,
    last_tx_stop_at := none }

end Levity

namespace Be

/-- An empty `ocpp_message` table. -/
def c4EmptyStore : MessageStore := { rows := [], next_id := 1 }

/-- The `ocpp_message` table after the first BootNotification Call with
unique_id b1 from CP1 has been stored. -/
def c4DupStore : MessageStore :=
  { rows := [{ id := 1, charge_point := "CP1", message_type := 2, unique_id := "b1",
               actor := "charge_point", action := some "BootNotification" }],
    next_id := 2 }

/-- Charge point row used by the status-notification claim: status
Available, empty vendor fields. -/
def c7ChargePoint : ChargePoint :=
  { id := "CP1", status := some "Available", vendor_error_code := "",
    vendor_status_info := "", vendor_status_id := "" }

/-- An unstopped be transaction with meter_start 200 and no meter values,
as in spec scenario S3. -/
def c1BeOrphan : Transaction :=
  { id := 1, charge_point := "CP1", started_at := some 0, stopped_at := none,
    connector_id := "1", id_tag := "old-tag", meter_start := 200, meter_stop := 0,
    meter_correction := 0, stop_reason := none }

end Be

/-- C1: the claim states that before a new transaction row is created for an
inbound StartTransaction, every active transaction of the station is stopped
with reason Other and meter_stop from its last Energy.Active.Import.Register
value (meter_start when none exists), leaving at most one Active transaction
per station.  Evaluating the levity handler on spec scenario S2 (station
CP1, one active transaction with meter_start 100 and a 1800 Wh reading),
with OrphanedTransactionPlugin installed, shows: the plugin registers no
hook at all (its hooks() dictionary names the missing ON_BOOT_NOTIFICATION
member, so registration aborts and is swallowed), the BEFORE phase is a
no-op, the handler creates the new Active transaction row and then raises
AttributeError at the nonexistent ON_START_TRANSACTION member — leaving TWO
Active transactions, the orphan unstopped with no stop fields set; moreover
even the plugin body itself, under the favourable reading of its broken
repository calls, leaves the database unchanged because the stop UPDATE
filters the never-populated tx_id column.  The alternative be middleware, on
a transaction with meter_start 200 and no meter values, stops it with
meter_stop 0, not meter_start. -/
theorem c1_start_transaction_orphan_closure_fails :
    Levity.orphanPluginRegisteredHooks "CP1" 100 = []
    ∧ (Levity.errorState
        (Levity.onStartTransaction
          (Levity.hooksFor (Levity.orphanPluginRegisteredHooks "CP1" 100)
            "BEFORE_START_TRANSACTION")
          (Levity.hooksFor (Levity.orphanPluginRegisteredHooks "CP1" 100)
            "ON_START_TRANSACTION")
          Levity.c1Db "CP1" 1 "new-tag" 5000 100)).map
        (fun s => s.txs.map (fun t => (t.id, t.status, t.stop_reason, t.meter_stop)))
      = some [(1, "Active", "", none), (2, "Active", "", none)]
    ∧ Levity.c1Db.txs = [Levity.c1OrphanTx]
    ∧ Levity.c1OrphanTx.meter_start = 100
    ∧ Levity.closeOrphanedTransactions Levity.c1Db "CP1" "Other" 100 = Levity.c1Db
    ∧ (Be.orphanedTransactionHandle [Be.c1BeOrphan] [] "CP1" 400).map
        (fun t => (t.stopped_at, t.meter_stop, t.stop_reason))
      = [(some 400, 0, some "Other")]
    ∧ Be.c1BeOrphan.meter_start = 200 := by
  exact ⟨rfl, rfl, rfl, rfl, rfl, rfl, rfl⟩

/-- C2: the claim states that StartTransaction with meterStart M followed by
StopTransaction with the replied transactionId, meterStop N and reason R
persists a transaction with meter_start M, meter_stop N, energy_delivered
N minus M, stop_reason R and status Completed.  Evaluating the levity
handlers (no plugins) at M = 0, N = 5000, R = Local shows the
StartTransaction handler never returns a reply at all — it raises
AttributeError at the nonexistent ON_START_TRANSACTION member after
creating row 1 Active — and even stopping that row by its database id 1
(the id the reply would have carried) leaves it Active with meter_stop
unset, empty stop_reason and zero energy, because the stop UPDATE filters
the tx_id column that the create left NULL. -/
theorem c2_start_stop_round_trip_fails :
    (Levity.onStartTransaction [] [] Levity.cleanDb "CP1" 1 "tag" 0 100).toOption = none
    ∧ (Levity.errorState
        (Levity.onStartTransaction [] [] Levity.cleanDb "CP1" 1 "tag" 0 100)).map
        (fun s => s.txs.map (fun t => (t.id, t.status)))
      = some [(1, "Active")]
    ∧ Levity.c2Run.map (fun s => s.txs.map (fun t =>
        (t.status, t.meter_stop, t.stop_reason, t.energy_delivered)))
      = some [("Active", (none : Option Int), "", 0)]
    ∧ Levity.c2Run.map (fun s => s.txs.map Levity.Transaction.meter_start) = some [0] := by
  exact ⟨rfl, rfl, rfl, rfl⟩

/-- C3: the claim states that a BootNotification from a station with active
transactions closes each of them with stop_reason Reboot under the orphan
closure rule.  Evaluating the levity boot handler on spec scenario S3
(station CP1, one active transaction with meter_start 200, no meter values),
even granting the plugin boot hook as a dispatchable value, shows the
handler raises at the ON_BOOT_NOTIFICATION dispatch line — the name is not
a PluginHook member, so the hook can never run — and the transaction
remains Active with an empty stop_reason; even the plugin body under the
favourable reading leaves the database unchanged. -/
theorem c3_boot_orphan_closure_fails :
    (Levity.errorState
        (Levity.onBootNotification [] [Levity.orphanBootHook "CP1" 300] Levity.c3Db
          "CP1" "VendorX" "ModelY" 60 300)).map Levity.Db.txs
      = some [Levity.c3OrphanTx]
    ∧ Levity.c3OrphanTx.status = "Active"
    ∧ Levity.c3OrphanTx.stop_reason = ""
    ∧ Levity.closeOrphanedTransactions Levity.c3Db "CP1" "Reboot" 300 = Levity.c3Db := by
  exact ⟨rfl, rfl, rfl, rfl⟩

/-- C10: the claim states that an exception raised by a plugin hook at any
phase is caught and logged inside the dispatcher, the remaining hooks still
run, and the handler still returns its normal reply.  Evaluating the levity
Authorize handler shows that registering any hook for the BEFORE phase —
even one that succeeds — makes the handler raise the TypeError from the
PluginContext construction; a raising hook produces the same TypeError, not
its own error; and even with no hooks registered at all the handler still
never returns the Accepted reply, because it raises AttributeError at the
nonexistent PluginHook.ON_AUTHORIZE member.  The guarded per-hook loop
itself, had it ever been reached, would have absorbed a raising hook and
continued. -/
theorem c10_plugin_hook_dispatch_raises :
    Levity.onAuthorize [Levity.benignHook] [] Levity.cleanDb "CP1" "tag"
      = .error (Levity.pluginContextTypeError, Levity.cleanDb)
    ∧ Levity.onAuthorize [Levity.failingHook] [] Levity.cleanDb "CP1" "tag"
      = .error (Levity.pluginContextTypeError, Levity.cleanDb)
    ∧ Levity.onAuthorize [] [] Levity.cleanDb "CP1" "tag"
      = .error (Levity.pluginHookAttributeError "ON_AUTHORIZE", Levity.cleanDb)
    ∧ Levity.runHookLoop [Levity.failingHook, Levity.benignHook] Levity.cleanDb
      = Levity.cleanDb := by
  exact ⟨rfl, rfl, rfl, rfl⟩

/-- A sanity check mirroring `tests/test_repositories.py::test_stop_transaction`:
when a transaction row is created with an explicit OCPP tx_id (12345), stopping
by that id does complete it with the expected stop fields. -/
theorem stop_transaction_with_explicit_tx_id_completes :
    ((Levity.TransactionRepository.stop_transaction
        (Levity.TransactionRepository.create Levity.cleanDb
          { id := 0, tx_id := some 12345, cp_id := "CP1", cp_conn_id := 1,
            id_tag := "t", start_time := 0, stop_time := none, meter_start := 1000,
            meter_stop := none, energy_delivered := 0, stop_reason := "",
            status := "Active" }).2
        12345 50 5000 "Local").txs.map
      (fun t => (t.status, t.meter_stop, t.energy_delivered, t.stop_reason)))
      = [("Completed", some 5000, 4000, "Local")] := by
  exact rfl

/-- C4 counterexample: the claim states the second Call with a duplicate
unique_id is dropped as an idempotent no-op.  Handling the same
BootNotification frame twice shows the first succeeds, while the second
raises IntegrityError out of ReceiveHandler.handle — the duplicate produces
no second row and no reply, but it is an uncaught exception, not a silent
drop. -/
theorem c4_duplicate_call_raises_integrity_error :
    (Be.receiveHandler Be.c4EmptyStore [] "CP1" "b1" "BootNotification").toOption.isSome = true
    ∧ ((Be.receiveHandler Be.c4EmptyStore [] "CP1" "b1" "BootNotification").toOption.map
        (fun p => Be.receiveHandler p.1 p.2 "CP1" "b1" "BootNotification"))
      = some (.error Be.integrityError) := by
  exact ⟨rfl, rfl⟩

/-- C4 as amended: for every inbound Call, if no Message row with the same
(actor charge_point, unique_id) exists the handler stores exactly one row
and produces exactly one reply; if such a row already exists the handler
raises IntegrityError — storing no second row and producing no reply, but
propagating the exception rather than silently skipping. -/
theorem c4_duplicate_unique_id_rejected_by_constraint :
    (∀ (st : Be.MessageStore) (replies : List String) (cp uid action : String),
        st.rows.any (fun r => r.actor == "charge_point" && r.unique_id == uid) = false →
        Be.receiveHandler st replies cp uid action
          = .ok ({ rows := st.rows ++
                     [{ id := st.next_id, charge_point := cp, message_type := 2,
                        unique_id := uid, actor := "charge_point",
                        action := some action }],
                   next_id := st.next_id + 1 },
                 replies ++ [uid]))
    ∧ (∀ (st : Be.MessageStore) (replies : List String) (cp uid action : String),
        st.rows.any (fun r => r.actor == "charge_point" && r.unique_id == uid) = true →
        Be.receiveHandler st replies cp uid action = .error Be.integrityError) := by
  constructor
  · intro st replies cp uid action h
    simp only [Be.receiveHandler, Be.Message.create, h, Bool.false_eq_true, if_false]
    rfl
  · intro st replies cp uid action h
    simp only [Be.receiveHandler, Be.Message.create, h, if_true]
    rfl

/-- Witness for C4: the amended theorem applied to the empty store (fresh
unique_id b1) and to the store already holding b1. -/
theorem c4_duplicate_unique_id_rejected_by_constraint_witness :
    Be.receiveHandler Be.c4EmptyStore [] "CP1" "b1" "BootNotification"
      = .ok ({ rows := Be.c4EmptyStore.rows ++
                 [{ id := Be.c4EmptyStore.next_id, charge_point := "CP1", message_type := 2,
                    unique_id := "b1", actor := "charge_point",
                    action := some "BootNotification" }],
               next_id := Be.c4EmptyStore.next_id + 1 },
             [] ++ ["b1"])
    ∧ Be.receiveHandler Be.c4DupStore ["b1"] "CP1" "b1" "BootNotification"
      = .error Be.integrityError :=
  ⟨c4_duplicate_unique_id_rejected_by_constraint.1 Be.c4EmptyStore [] "CP1" "b1"
      "BootNotification" (by decide),
   c4_duplicate_unique_id_rejected_by_constraint.2 Be.c4DupStore ["b1"] "CP1" "b1"
      "BootNotification" (by decide)⟩

/-- C6 counterexample: the claim states an old session whose cleanup runs
after it was replaced never removes the new session's registry entry.  In
the ws gateway, with session 2 currently registered for CP1, the disconnect
of the replaced session 1 pops the entry unconditionally, removing session
2's registration. -/
theorem c6_ws_disconnect_clobbers_new_session :
    Ws.onDisconnectPop [("CP1", 2)] "CP1" = []
    ∧ [("CP1", 2)] ≠ ([] : List (String × Nat)) := by
  exact ⟨rfl, by decide⟩

/-- C6 as amended: in the levity OCPPServer the cleanup removes the registry
entry only when the registered session is identity-equal to the session
being torn down — a replaced session leaves the new entry intact, and the
currently registered session does remove its own entry; the levity_ws
gateway, by contrast, pops the entry unconditionally. -/
theorem c6_levity_cleanup_identity_guard :
    (∀ (r : List (String × Nat)) (id : String) (old cur : Nat),
        Levity.registryLookup r id = some cur → cur ≠ old →
        Levity.cleanupUnregister r id old = r)
    ∧ (∀ (r : List (String × Nat)) (id : String) (cur : Nat),
        Levity.registryLookup r id = some cur →
        Levity.cleanupUnregister r id cur = r.filter (fun p => p.1 != id)) := by
  constructor
  · intro r id old cur h1 h2
    unfold Levity.cleanupUnregister
    rw [h1]
    simp [h2]
  · intro r id cur h1
    unfold Levity.cleanupUnregister
    rw [h1]
    simp

/-- Witness for C6: the amended theorem applied to the registry holding
session 2 for CP1, torn down once by the replaced session 1 and once by
session 2 itself. -/
theorem c6_levity_cleanup_identity_guard_witness :
    Levity.cleanupUnregister [("CP1", 2)] "CP1" 1 = [("CP1", 2)]
    ∧ Levity.cleanupUnregister [("CP1", 2)] "CP1" 2
      = [("CP1", 2)].filter (fun p => p.1 != "CP1") :=
  ⟨c6_levity_cleanup_identity_guard.1 [("CP1", 2)] "CP1" 1 2 rfl (by decide),
   c6_levity_cleanup_identity_guard.2 [("CP1", 2)] "CP1" 2 rfl⟩

/-- C8 counterexample: the claim states every websocket connection attempt
selects subprotocol ocpp1.6, in particular when the client offers no
subprotocols.  The ws gateway accepts with the raw client header, so a
client that offers nothing is accepted with no subprotocol at all. -/
theorem c8_ws_accept_echoes_header :
    Ws.onConnectSubprotocol none = none
    ∧ (none : Option String) ≠ some "ocpp1.6" := by
  exact ⟨rfl, by decide⟩

/-- C8 as amended: the levity OCPPServer select_subprotocol returns ocpp1.6
for every offer list — logging the unsupported-subprotocol warning exactly
when the list is nonempty and lacks ocpp1.6 — while the levity_ws gateway
accepts with whatever the client sent in the sec-websocket-protocol header
(nothing when the header is absent). -/
theorem c8_select_subprotocol_always_ocpp16 :
    ∀ (sp : List String) (h : Option String),
      (Levity.select_subprotocol sp).1 = "ocpp1.6"
      ∧ ((Levity.select_subprotocol sp).2 = true ↔
          sp ≠ [] ∧ "ocpp1.6" ∉ sp)
      ∧ Ws.onConnectSubprotocol h = h := by
  intro sp h
  refine ⟨?_, ?_, rfl⟩
  · unfold Levity.select_subprotocol
    split
    · rfl
    · split <;> rfl
  · cases sp with
    | nil => simp [Levity.select_subprotocol]
    | cons a l =>
        by_cases hc : "ocpp1.6" ∈ a :: l
        · simp [Levity.select_subprotocol, hc]
        · simp [Levity.select_subprotocol, hc]

/-- C9 counterexample: the claim states that on an existing row, null-valued
fields and fields the caller does not set leave the stored values unchanged.
Upserting `ChargePoint(id="CP1")` — all fields at their dataclass defaults —
over a row with vendor V1, status Available and is_connected True rewrites
vendor to the empty string, status to Unknown and is_connected to False,
because the defaults are empty strings (not SQL NULL) and is_connected is
assigned unconditionally; supplying is_connected=None also overwrites the
stored True with False. -/
theorem c9_upsert_defaults_overwrite :
    Levity.ChargePointRepository.get_by_id
        (Levity.ChargePointRepository.upsert Levity.c9Db (Levity.ChargePoint.mkDefault "CP1"))
        "CP1"
      = some { Levity.ChargePoint.mkDefault "CP1" with last_boot_at := some 10 }
    ∧ Levity.c9StoredRow.vendor = some "V1"
    ∧ Levity.c9StoredRow.status = some "Available"
    ∧ Levity.c9StoredRow.is_connected = some true
    ∧ ((Levity.ChargePointRepository.get_by_id
          (Levity.ChargePointRepository.upsert Levity.c9Db
            { Levity.ChargePoint.mkDefault "CP1" with is_connected := none }) "CP1").map
        Levity.ChargePoint.is_connected) = some (some false) := by
  exact ⟨rfl, rfl, rfl, rfl, rfl⟩

/-- Mapping a list with a function that rewrites exactly the rows matching
`p` — where the rewrite still matches `p` — commutes with `find? p`. -/
theorem find?_map_guarded {α : Type} (p : α → Bool) (g : α → α)
    (hp : ∀ x, p x = true → p (g x) = true) :
    ∀ (l : List α), (l.map (fun x => if p x then g x else x)).find? p
      = (l.find? p).map (fun x => if p x then g x else x)
  | [] => rfl
  | a :: l => by
      by_cases h : p a = true
      · rw [List.map_cons, if_pos h, List.find?_cons_of_pos _ (hp a h),
            List.find?_cons_of_pos _ h]
        simp [h]
      · have hb : p a = false := by
          cases hv : p a
          · rfl
          · exact absurd hv h
        rw [List.map_cons, if_neg (by simp [hb]), List.find?_cons_of_neg _ (by simp [hb]),
            List.find?_cons_of_neg _ (by simp [hb]), find?_map_guarded p g hp l]

/-- Looking up a charge point after an upsert over an existing row returns
the row rewritten by the DO UPDATE SET clause. -/
theorem get_by_id_upsert_existing (db : Levity.Db) (cp old : Levity.ChargePoint)
    (h : Levity.ChargePointRepository.get_by_id db cp.id = some old) :
    Levity.ChargePointRepository.get_by_id (Levity.ChargePointRepository.upsert db cp) cp.id
      = some (Levity.ChargePointRepository.updateRow cp old) := by
  have hpold : (old.id == cp.id) = true := by
    have := List.find?_some h
    exact this
  unfold Levity.ChargePointRepository.get_by_id at h
  unfold Levity.ChargePointRepository.upsert Levity.ChargePointRepository.get_by_id
  rw [h]
  have hg := find?_map_guarded (fun c : Levity.ChargePoint => c.id == cp.id)
      (fun c => Levity.ChargePointRepository.updateRow cp c)
      (fun x hx => by simpa [Levity.ChargePointRepository.updateRow] using hx) db.cps
  simp only at hg ⊢
  rw [hg, h]
  rw [Option.map_some', if_pos hpold]

/-- C9 as amended: on an existing row, every field supplied as SQL NULL is
kept by the COALESCE update — for name, vendor, model, serial_number,
firmware_version, iccid, imsi, status and the five timestamps — while
is_connected is rewritten unconditionally with the truthiness of the
supplied value; fields left at the dataclass defaults are empty strings,
Unknown or False, none of which is NULL, and they do overwrite. -/
theorem c9_upsert_null_fields_preserved :
    ∀ (db : Levity.Db) (cp old : Levity.ChargePoint),
      Levity.ChargePointRepository.get_by_id db cp.id = some old →
      Levity.ChargePointRepository.get_by_id
          (Levity.ChargePointRepository.upsert db cp) cp.id
        = some (Levity.ChargePointRepository.updateRow cp old)
      ∧ (cp.name = none → (Levity.ChargePointRepository.updateRow cp old).name = old.name)
      ∧ (cp.vendor = none → (Levity.ChargePointRepository.updateRow cp old).vendor = old.vendor)
      ∧ (cp.model = none → (Levity.ChargePointRepository.updateRow cp old).model = old.model)
      ∧ (cp.serial_number = none →
          (Levity.ChargePointRepository.updateRow cp old).serial_number = old.serial_number)
      ∧ (cp.firmware_version = none →
          (Levity.ChargePointRepository.updateRow cp old).firmware_version = old.firmware_version)
      ∧ (cp.iccid = none → (Levity.ChargePointRepository.updateRow cp old).iccid = old.iccid)
      ∧ (cp.imsi = none → (Levity.ChargePointRepository.updateRow cp old).imsi = old.imsi)
      ∧ (cp.status = none → (Levity.ChargePointRepository.updateRow cp old).status = old.status)
      ∧ (cp.last_heartbeat_at = none →
          (Levity.ChargePointRepository.updateRow cp old).last_heartbeat_at = old.last_heartbeat_at)
      ∧ (cp.last_boot_at = none →
          (Levity.ChargePointRepository.updateRow cp old).last_boot_at = old.last_boot_at)
      ∧ (cp.last_connect_at = none →
          (Levity.ChargePointRepository.updateRow cp old).last_connect_at = old.last_connect_at)
      ∧ (cp.last_tx_start_at = none →
          (Levity.ChargePointRepository.updateRow cp old).last_tx_start_at = old.last_tx_start_at)
      ∧ (cp.last_tx_stop_at = none →
          (Levity.ChargePointRepository.updateRow cp old).last_tx_stop_at = old.last_tx_stop_at)
      ∧ (Levity.ChargePointRepository.updateRow cp old).is_connected
        = some (cp.is_connected == some true) := by
  intro db cp old h
  refine ⟨get_by_id_upsert_existing db cp old h, ?_, ?_, ?_, ?_, ?_, ?_, ?_, ?_, ?_, ?_, ?_,
    ?_, ?_, rfl⟩
  all_goals intro hn
  all_goals simp [Levity.ChargePointRepository.updateRow, hn]

/-- Witness for C9: the amended theorem applied to the stored CP1 row and an
upsert argument whose nullable fields are all None. -/
theorem c9_upsert_null_fields_preserved_witness :
    Levity.ChargePointRepository.get_by_id
        (Levity.ChargePointRepository.upsert Levity.c9Db Levity.c9NullInput) "CP1"
      = some (Levity.ChargePointRepository.updateRow Levity.c9NullInput Levity.c9StoredRow)
    ∧ (Levity.ChargePointRepository.updateRow Levity.c9NullInput Levity.c9StoredRow).vendor
      = Levity.c9StoredRow.vendor
    ∧ (Levity.ChargePointRepository.updateRow Levity.c9NullInput Levity.c9StoredRow).status
      = Levity.c9StoredRow.status
    ∧ (Levity.ChargePointRepository.updateRow Levity.c9NullInput Levity.c9StoredRow).is_connected
      = some false :=
  ⟨(c9_upsert_null_fields_preserved Levity.c9Db Levity.c9NullInput Levity.c9StoredRow rfl).1,
   (c9_upsert_null_fields_preserved Levity.c9Db Levity.c9NullInput Levity.c9StoredRow rfl).2.2.1 rfl,
   (c9_upsert_null_fields_preserved Levity.c9Db Levity.c9NullInput Levity.c9StoredRow
      rfl).2.2.2.2.2.2.2.2.1 rfl,
   (c9_upsert_null_fields_preserved Levity.c9Db Levity.c9NullInput Levity.c9StoredRow
      rfl).2.2.2.2.2.2.2.2.2.2.2.2.2.2⟩

/-- Mapping a list with a function that replaces exactly the rows matching
`p` by a fixed row that itself matches `p` commutes with `find? p`. -/
theorem find?_map_const {α : Type} (p : α → Bool) (u : α) (hu : p u = true) :
    ∀ (l : List α), (l.map (fun x => if p x then u else x)).find? p
      = (l.find? p).map (fun _ => u)
  | [] => rfl
  | a :: l => by
      by_cases h : p a = true
      · rw [List.map_cons, if_pos h, List.find?_cons_of_pos _ hu, List.find?_cons_of_pos _ h,
            Option.map_some']
      · rw [List.map_cons, if_neg h, List.find?_cons_of_neg _ h, List.find?_cons_of_neg _ h,
            find?_map_const p u hu l]

/-- After `_ensure_charge_point_exists`, a charge point row for the station
exists. -/
theorem ensure_get_by_id_isSome (db : Levity.Db) (cp_id : String) :
    (Levity.ChargePointRepository.get_by_id
        (Levity.ensureChargePointExists db cp_id) cp_id).isSome = true := by
  unfold Levity.ensureChargePointExists
  cases h : Levity.ChargePointRepository.get_by_id db cp_id with
  | some c => rw [h]; rfl
  | none =>
      unfold Levity.ChargePointRepository.get_by_id at h
      unfold Levity.ChargePointRepository.get_by_id Levity.ChargePointRepository.upsert
        Levity.ChargePoint.mkDefault
      simp only at h ⊢
      rw [h]
      simp [List.find?]

/-- Updating the status of an existing charge point row makes the stored
status the new value. -/
theorem cpStatusOf_update_status (db : Levity.Db) (cp_id st : String)
    (h : (Levity.ChargePointRepository.get_by_id db cp_id).isSome = true) :
    Levity.cpStatusOf (Levity.ChargePointRepository.update_status db cp_id st) cp_id
      = some (some st) := by
  obtain ⟨c, hc⟩ := Option.isSome_iff_exists.mp h
  unfold Levity.ChargePointRepository.get_by_id at hc
  have hpc : (c.id == cp_id) = true := by
    have := List.find?_some hc
    exact this
  unfold Levity.cpStatusOf Levity.ChargePointRepository.update_status
    Levity.ChargePointRepository.get_by_id
  have hg := find?_map_guarded (fun x : Levity.ChargePoint => x.id == cp_id)
      (fun x => { x with status := some st }) (fun x hx => hx) db.cps
  simp only at hg ⊢
  rw [hg, hc, Option.map_some', if_pos hpc, Option.map_some']

/-- The connector upsert never touches the charge point table. -/
theorem conn_upsert_cps (db : Levity.Db) (c : Levity.Connector) :
    (Levity.ConnectorRepository.upsert db c).2.cps = db.cps := by
  unfold Levity.ConnectorRepository.upsert
  split <;> rfl

/-- After the connector upsert, the stored row for the pair carries the new
status. -/
theorem connStatusOf_upsert (db : Levity.Db) (c : Levity.Connector) :
    Levity.connStatusOf (Levity.ConnectorRepository.upsert db c).2 c.cp_id c.conn_id
      = some c.status := by
  unfold Levity.connStatusOf Levity.ConnectorRepository.upsert
    Levity.ConnectorRepository.get_by_cp_and_connector
  cases hf : db.conns.find? (fun x => x.cp_id == c.cp_id && x.conn_id == c.conn_id) with
  | none =>
      simp only
      rw [List.find?_append, hf]
      simp [List.find?]
  | some old =>
      simp only
      have hpold : (old.cp_id == c.cp_id && old.conn_id == c.conn_id) = true := by
        have := List.find?_some hf
        exact this
      have hg := find?_map_const
          (fun x : Levity.Connector => x.cp_id == c.cp_id && x.conn_id == c.conn_id)
          { old with status := c.status, error_code := c.error_code,
                     vendor_error_code := c.vendor_error_code }
          hpold db.conns
      simp only at hg ⊢
      rw [hg, hf, Option.map_some', Option.map_some']

/-- C7 counterexample: the claim states that for a StatusNotification with
connector_id greater than 0 the ChargePoint status is not changed.  The be
StatusNotificationHandler, evaluated on the frame of the repository's own
test (connectorId 1, status Preparing), rewrites the charge point status
from Available to Preparing — it updates the charge point for every
connector id and never writes a connector row. -/
theorem c7_be_handler_updates_cp_for_connector_one :
    (Be.statusNotificationHandle Be.c7ChargePoint
        { connectorId := 1, status := "Preparing", vendorErrorCode := some "0",
          info := some "Pilot and Charger:20h", vendorId := some "UC" }).status
      = some "Preparing"
    ∧ Be.c7ChargePoint.status = some "Available" := by
  exact ⟨rfl, rfl⟩

/-- C7 as amended: in the levity handler, a StatusNotification with
connector_id 0 updates only the ChargePoint status (the levity ChargePoint
model has no vendor status fields) and creates or updates no Connector row,
while connector_id greater than 0 upserts the Connector row with the new
status and leaves the charge point rows — hence the ChargePoint status —
unchanged; in both cases the handler then raises AttributeError at the
nonexistent PluginHook.ON_STATUS_NOTIFICATION member, so the empty reply is
never returned while the database write stands.  The be
StatusNotificationHandler instead updates the ChargePoint status and vendor
fields for every connector id. -/
theorem c7_levity_status_notification_split :
    ∀ (db : Levity.Db) (cp_id ec st vec : String) (conn_id : Nat),
      (Levity.onStatusNotification [] [] db cp_id conn_id ec st vec).toOption = none
      ∧ (conn_id = 0 →
        Levity.errorState (Levity.onStatusNotification [] [] db cp_id conn_id ec st vec)
          = some (Levity.ChargePointRepository.update_status
              (Levity.ensureChargePointExists db cp_id) cp_id st)
        ∧ (Levity.ChargePointRepository.update_status
            (Levity.ensureChargePointExists db cp_id) cp_id st).conns
          = (Levity.ensureChargePointExists db cp_id).conns
        ∧ Levity.cpStatusOf
            (Levity.ChargePointRepository.update_status
              (Levity.ensureChargePointExists db cp_id) cp_id st) cp_id
          = some (some st))
      ∧ (conn_id ≠ 0 →
        ((Levity.errorState
            (Levity.onStatusNotification [] [] db cp_id conn_id ec st vec)).map
            Levity.Db.cps)
          = some (Levity.ensureChargePointExists db cp_id).cps
        ∧ ((Levity.errorState
            (Levity.onStatusNotification [] [] db cp_id conn_id ec st vec)).map
            (fun s => Levity.connStatusOf s cp_id conn_id))
          = some (some st)) := by
  intro db cp_id ec st vec conn_id
  refine ⟨?_, ?_, ?_⟩
  · cases conn_id with
    | zero => rfl
    | succ n => rfl
  · intro h0
    subst h0
    refine ⟨rfl, rfl, ?_⟩
    exact cpStatusOf_update_status _ cp_id st (ensure_get_by_id_isSome db cp_id)
  · intro hne
    cases conn_id with
    | zero => exact absurd rfl hne
    | succ n =>
        constructor
        · show some ((Levity.ConnectorRepository.upsert (Levity.ensureChargePointExists db cp_id)
              { id := none, cp_id := cp_id, conn_id := n + 1, status := st,
                error_code := ec, vendor_error_code := vec }).2.cps)
            = some (Levity.ensureChargePointExists db cp_id).cps
          exact congrArg some (conn_upsert_cps _ _)
        · show some (Levity.connStatusOf
              ((Levity.ConnectorRepository.upsert (Levity.ensureChargePointExists db cp_id)
                { id := none, cp_id := cp_id, conn_id := n + 1, status := st,
                  error_code := ec, vendor_error_code := vec }).2) cp_id (n + 1))
            = some (some st)
          exact congrArg some (connStatusOf_upsert _ _)

/-- Witness for C7: the amended theorem applied to the CP1 database, once
with connector_id 0 and status Available, once with connector_id 1 and
status Charging. -/
theorem c7_levity_status_notification_split_witness :
    Levity.errorState
        (Levity.onStatusNotification [] [] Levity.cleanDb "CP1" 0 "NoError" "Available" "")
      = some (Levity.ChargePointRepository.update_status
          (Levity.ensureChargePointExists Levity.cleanDb "CP1") "CP1" "Available")
    ∧ Levity.cpStatusOf
        (Levity.ChargePointRepository.update_status
          (Levity.ensureChargePointExists Levity.cleanDb "CP1") "CP1" "Available") "CP1"
      = some (some "Available")
    ∧ ((Levity.errorState
          (Levity.onStatusNotification [] [] Levity.cleanDb "CP1" 1 "NoError" "Charging"
            "")).map Levity.Db.cps)
      = some (Levity.ensureChargePointExists Levity.cleanDb "CP1").cps
    ∧ ((Levity.errorState
          (Levity.onStatusNotification [] [] Levity.cleanDb "CP1" 1 "NoError" "Charging"
            "")).map (fun s => Levity.connStatusOf s "CP1" 1))
      = some (some "Charging") :=
  ⟨((c7_levity_status_notification_split Levity.cleanDb "CP1" "NoError" "Available" "" 0).2.1
      rfl).1,
   ((c7_levity_status_notification_split Levity.cleanDb "CP1" "NoError" "Available" "" 0).2.1
      rfl).2.2,
   ((c7_levity_status_notification_split Levity.cleanDb "CP1" "NoError" "Charging" "" 1).2.2
      (by decide)).1,
   ((c7_levity_status_notification_split Levity.cleanDb "CP1" "NoError" "Charging" "" 1).2.2
      (by decide)).2⟩

/-- The first transmit of a consumer trace started at free time `t` is at
`t` or later. -/
theorem nextTransmit_consume (rest : List Ws.OutboundCommand) (t : Nat)
    (f : String → Option Nat) :
    Ws.nextTransmitNotBefore (Ws.consumeCommandQueue rest t f) t = true := by
  cases rest with
  | nil => rfl
  | cons c cs =>
      unfold Ws.consumeCommandQueue
      cases hf : f c.uid with
      | none =>
          simp [Ws.nextTransmitNotBefore, Nat.le_max_left]
      | some d =>
          by_cases hd : d ≤ Ws.CHARGER_REPLY_TIMEOUT_SECONDS * 1000
          · simp [hd, Ws.nextTransmitNotBefore, Nat.le_max_left]
          · simp [hd, Ws.nextTransmitNotBefore, Nat.le_max_left]

/-- Transmissions happen in exactly the order the commands were enqueued. -/
theorem transmitLog_consume (q : List Ws.OutboundCommand) :
    ∀ (t : Nat) (f : String → Option Nat),
      (Ws.transmitLog (Ws.consumeCommandQueue q t f)).map Prod.fst
        = q.map Ws.OutboundCommand.uid := by
  induction q with
  | nil => intro t f; rfl
  | cons c cs ih =>
      intro t f
      unfold Ws.consumeCommandQueue
      cases hf : f c.uid with
      | none => simp [Ws.transmitLog, ih]
      | some d =>
          by_cases hd : d ≤ Ws.CHARGER_REPLY_TIMEOUT_SECONDS * 1000
          · simp [hd, Ws.transmitLog, ih]
          · simp [hd, Ws.transmitLog, ih]

/-- Every command is transmitted no earlier than its enqueue instant plus
the configured delay. -/
theorem transmit_delay_consume (q : List Ws.OutboundCommand) :
    ∀ (t : Nat) (f : String → Option Nat),
      List.Forall₂ (fun c p => c.enqueued_at + Ws.CHARGER_COMMAND_DELAY_MS ≤ p.2)
        q (Ws.transmitLog (Ws.consumeCommandQueue q t f)) := by
  induction q with
  | nil => intro t f; exact List.Forall₂.nil
  | cons c cs ih =>
      intro t f
      unfold Ws.consumeCommandQueue
      cases hf : f c.uid with
      | none =>
          simp only [Ws.transmitLog]
          exact List.Forall₂.cons (Nat.le_max_right _ _) (ih _ f)
      | some d =>
          by_cases hd : d ≤ Ws.CHARGER_REPLY_TIMEOUT_SECONDS * 1000
          · simp only [hd, if_true, Ws.transmitLog]
            exact List.Forall₂.cons (Nat.le_max_right _ _) (ih _ f)
          · simp only [hd, if_false, Ws.transmitLog]
            exact List.Forall₂.cons (Nat.le_max_right _ _) (ih _ f)

/-- The consumer trace is serialized: each transmission is followed by the
reply or the 30-second timeout of that same command before the next
transmission occurs. -/
theorem serialized_consume (q : List Ws.OutboundCommand) :
    ∀ (t : Nat) (f : String → Option Nat),
      Ws.serializedCheck (Ws.consumeCommandQueue q t f) = true := by
  induction q with
  | nil => intro t f; rfl
  | cons c cs ih =>
      intro t f
      unfold Ws.consumeCommandQueue
      cases hf : f c.uid with
      | none =>
          simp [Ws.serializedCheck, nextTransmit_consume, ih]
      | some d =>
          by_cases hd : d ≤ Ws.CHARGER_REPLY_TIMEOUT_SECONDS * 1000
          · simp [hd, Ws.serializedCheck, nextTransmit_consume, ih]
          · simp [hd, Ws.serializedCheck, nextTransmit_consume, ih]

/-- C5: outbound Calls to one station are transmitted in exactly the order
they were enqueued; each is held for the configured delay
(CHARGER_COMMAND_DELAY_MS, 1 s) before transmission; and no Call is
transmitted before the previous Call has either received its correlated
reply or its CHARGER_REPLY_TIMEOUT_SECONDS (30 s) timeout has elapsed —
for every queue of commands, every initial free instant and every station
reply behaviour. -/
theorem c5_outbound_commands_serialized :
    ∀ (q : List Ws.OutboundCommand) (t : Nat) (f : String → Option Nat),
      (Ws.transmitLog (Ws.consumeCommandQueue q t f)).map Prod.fst
        = q.map Ws.OutboundCommand.uid
      ∧ List.Forall₂ (fun c p => c.enqueued_at + Ws.CHARGER_COMMAND_DELAY_MS ≤ p.2)
          q (Ws.transmitLog (Ws.consumeCommandQueue q t f))
      ∧ Ws.serializedCheck (Ws.consumeCommandQueue q t f) = true :=
  fun q t f => ⟨transmitLog_consume q t f, transmit_delay_consume q t f,
    serialized_consume q t f⟩
